import Mathlib

/-!
Verification of the mcp-assistant agent loop and tool-call dispatch engine.

The definitions below are a shallow embedding of the two source files:
  - `src/plan_exec_agent/step_executor.py` (class `StepExecutor`)
  - `mcp_assistant/host.py` (class `MCPHost`)

Modelling conventions:
  - Python dicts used as caches become association lists where insertion
    prepends and lookup takes the first match, which gives Python's
    assignment-overwrites semantics.
  - JSON values (`json.loads` / `json.dumps`) are modelled by the inductive
    `JVal`; JSON numbers are modelled as arbitrary-precision integers
    (fractional and exponent forms are outside the model), and the
    `\uXXXX` string escape is outside the model.
  - Code that raises a Python exception (TypeError, KeyError) is modelled
    with `Except Unit`, `Except.error ()` standing for a raised exception.
  - External collaborators (the model provider, the Arcade tool fetch, the
    MCP backends, the external `ToolProcessor`) are parameters: the model
    is an oracle giving each call's response, the tool processor is a
    `Resolver` function, backends are `invoke` / `readResource` functions.
-/

/-- The JSON data model used to embed `json.loads` / `json.dumps`.
Numbers are modelled as integers. -/
inductive JVal where
  | jnull : JVal
  | jbool (b : Bool) : JVal
  | jnum (n : Int) : JVal
  | jstr (s : String) : JVal
  | jarr (xs : List JVal) : JVal
  | jobj (fields : List (String × JVal)) : JVal
deriving Repr

/-- Python truthiness of a JSON value (`if data` in `_extract_reference_data`):
None, False, 0, empty string, empty list and empty dict are falsy. -/
def jtruthy : JVal → Bool
  | JVal.jnull => false
  | JVal.jbool b => b
  | JVal.jnum n => decide (n ≠ 0)
  | JVal.jstr s => decide (s ≠ "")
  | JVal.jarr xs => !xs.isEmpty
  | JVal.jobj fs => !fs.isEmpty

/-- Serialization of a string for `json.dumps` (escaping restricted to the
quote and backslash, which is all the development evaluates). -/
def quoteJStr (s : String) : String :=
  "\"" ++ String.join (s.data.map (fun c =>
    if c = '"' then "\\\""
    else if c = '\\' then "\\\\"
    else String.mk [c])) ++ "\""

mutual

/-- Embedding of `json.dumps` with its default separators. -/
def dumps : JVal → String
  | JVal.jnull => "null"
  | JVal.jbool true => "true"
  | JVal.jbool false => "false"
  | JVal.jnum n => toString n
  | JVal.jstr s => quoteJStr s
  | JVal.jarr xs => "[" ++ dumpsList xs ++ "]"
  | JVal.jobj fs => "\x7b" ++ dumpsObj fs ++ "\x7d"

/-- `json.dumps` on the elements of an array. -/
def dumpsList : List JVal → String
  | [] => ""
  | [x] => dumps x
  | x :: y :: xs => dumps x ++ ", " ++ dumpsList (y :: xs)

/-- `json.dumps` on the members of an object. -/
def dumpsObj : List (String × JVal) → String
  | [] => ""
  | [kv] => quoteJStr kv.1 ++ ": " ++ dumps kv.2
  | kv :: kv2 :: fs => quoteJStr kv.1 ++ ": " ++ dumps kv.2 ++ ", " ++ dumpsObj (kv2 :: fs)

end

/-- JSON whitespace. -/
def isJWs (c : Char) : Bool :=
  c = ' ' || c = Char.ofNat 9 || c = Char.ofNat 10 || c = Char.ofNat 13

/-- Skip JSON whitespace. -/
def skipWs : List Char → List Char
  | [] => []
  | c :: cs => if isJWs c then skipWs cs else c :: cs

/-- Decode a one-character JSON string escape (`\uXXXX` outside the model). -/
def escDecode (c : Char) : Option Char :=
  if c = '"' then some '"'
  else if c = '\\' then some '\\'
  else if c = '/' then some '/'
  else if c = 'n' then some (Char.ofNat 10)
  else if c = 't' then some (Char.ofNat 9)
  else if c = 'r' then some (Char.ofNat 13)
  else if c = 'b' then some (Char.ofNat 8)
  else if c = 'f' then some (Char.ofNat 12)
  else none

/-- Parse the body of a JSON string after its opening quote; returns the
decoded characters and the rest of the input. -/
def parseStrBody : List Char → Option (List Char × List Char)
  | [] => none
  | c :: cs =>
    if c = '"' then some ([], cs)
    else if c = '\\' then
      match cs with
      | [] => none
      | e :: cs2 =>
        match escDecode e with
        | some d => (parseStrBody cs2).map (fun p => (d :: p.1, p.2))
        | none => none
    else (parseStrBody cs).map (fun p => (c :: p.1, p.2))

/-- Take the longest run of decimal digits. -/
def takeDigits : List Char → (List Char × List Char)
  | [] => ([], [])
  | c :: cs =>
    if c.isDigit then
      let p := takeDigits cs
      (c :: p.1, p.2)
    else ([], c :: cs)

/-- Digits to a natural number. -/
def digitsToNat (acc : Nat) : List Char → Nat
  | [] => acc
  | c :: cs => digitsToNat (acc * 10 + (c.toNat - 48)) cs

/-- Parse a JSON integer (fractional and exponent forms are outside the
model and fail, as does a leading zero on a multi-digit number). -/
def parseNumber (cs : List Char) : Option (JVal × List Char) :=
  let signed : Bool × List Char :=
    match cs with
    | c :: rest => if c = '-' then (true, rest) else (false, cs)
    | [] => (false, cs)
  match takeDigits signed.2 with
  | ([], _) => none
  | (d :: ds, rest) =>
    if d = '0' ∧ ds ≠ [] then none
    else
      match rest with
      | c :: _ =>
        if c = '.' ∨ c = 'e' ∨ c = 'E' then none
        else
          some (JVal.jnum (if signed.1 then -(digitsToNat 0 (d :: ds) : Int)
                           else (digitsToNat 0 (d :: ds) : Int)), rest)
      | [] =>
        some (JVal.jnum (if signed.1 then -(digitsToNat 0 (d :: ds) : Int)
                         else (digitsToNat 0 (d :: ds) : Int)), rest)

mutual

/-- Fueled recursive-descent JSON value parser (embedding of `json.loads`). -/
def parseVal : Nat → List Char → Option (JVal × List Char)
  | 0, _ => none
  | Nat.succ fuel, cs =>
    match skipWs cs with
    | [] => none
    | '"' :: rest => (parseStrBody rest).map (fun p => (JVal.jstr (String.mk p.1), p.2))
    | '[' :: rest =>
      (match skipWs rest with
       | ']' :: r => some (JVal.jarr [], r)
       | cs2 => parseArrItems fuel cs2 [])
    | c :: rest =>
      if c = Char.ofNat 123 then
        match skipWs rest with
        | [] => none
        | c2 :: r =>
          if c2 = Char.ofNat 125 then some (JVal.jobj [], r)
          else parseObjItems fuel (c2 :: r) []
      else
        match c :: rest with
        | 't' :: 'r' :: 'u' :: 'e' :: r => some (JVal.jbool true, r)
        | 'f' :: 'a' :: 'l' :: 's' :: 'e' :: r => some (JVal.jbool false, r)
        | 'n' :: 'u' :: 'l' :: 'l' :: r => some (JVal.jnull, r)
        | cs3 => parseNumber cs3

/-- Parse the comma-separated items of a JSON array. -/
def parseArrItems : Nat → List Char → List JVal → Option (JVal × List Char)
  | 0, _, _ => none
  | Nat.succ fuel, cs, acc =>
    match parseVal fuel cs with
    | none => none
    | some (v, rest) =>
      match skipWs rest with
      | ',' :: r => parseArrItems fuel (skipWs r) (acc ++ [v])
      | ']' :: r => some (JVal.jarr (acc ++ [v]), r)
      | _ => none

/-- Parse the comma-separated members of a JSON object. -/
def parseObjItems : Nat → List Char → List (String × JVal) → Option (JVal × List Char)
  | 0, _, _ => none
  | Nat.succ fuel, cs, acc =>
    match skipWs cs with
    | '"' :: rest =>
      (match parseStrBody rest with
       | none => none
       | some (kcs, rest2) =>
         match skipWs rest2 with
         | ':' :: rest3 =>
           (match parseVal fuel (skipWs rest3) with
            | none => none
            | some (v, rest4) =>
              match skipWs rest4 with
              | ',' :: r => parseObjItems fuel (skipWs r) (acc ++ [(String.mk kcs, v)])
              | c :: r =>
                if c = Char.ofNat 125 then some (JVal.jobj (acc ++ [(String.mk kcs, v)]), r)
                else none
              | [] => none)
         | _ => none)
    | _ => none

end

/-- Embedding of `json.loads`: parse a whole string as one JSON value. -/
def parseJson (s : String) : Option JVal :=
  match parseVal (2 * s.length + 2) s.data with
  | some (v, rest) => if skipWs rest = [] then some v else none
  | none => none

example : parseJson "\x7b\"a\":\x7b\"b\":42\x7d\x7d"
    = some (JVal.jobj [("a", JVal.jobj [("b", JVal.jnum 42)])]) := rfl

example : parseJson "not json" = none := rfl

/-- A Python-dict style association list: lookup takes the first match. -/
def lookupDict {α : Type} : List (String × α) → String → Option α
  | [], _ => none
  | kv :: rest, k => if kv.1 = k then some kv.2 else lookupDict rest k

/-- A Python-dict style write `d[k] = v`: prepending shadows (overwrites)
any earlier binding of the same key under `lookupDict`. -/
def dictInsert {α : Type} (k : String) (v : α) (d : List (String × α)) :
    List (String × α) :=
  (k, v) :: d

/-- Lookup of a key in a parsed JSON object (`data[part]`); JSON objects
with a duplicated key keep the last member, as `json.loads` does. -/
def objLookupLast : List (String × JVal) → String → Option JVal
  | [], _ => none
  | kv :: rest, k =>
    match objLookupLast rest k with
    | some r => some r
    | none => if kv.1 = k then some kv.2 else none

/-- Python `part in data` for a JSON array: `in` on a list compares elements
with `==`, and a string only equals a string. -/
def arrContainsStr (xs : List JVal) (part : String) : Bool :=
  xs.any (fun x =>
    match x with
    | JVal.jstr s2 => decide (s2 = part)
    | _ => false)

/-- Whether the first list of characters is a prefix of the second. -/
def startsChars : List Char → List Char → Bool
  | [], _ => true
  | _ :: _, [] => false
  | a :: as, b :: bs => a = b && startsChars as bs

/-- Whether `needle` occurs contiguously inside the second list. -/
def hasSubChars (needle : List Char) : List Char → Bool
  | [] => needle.isEmpty
  | c :: cs => startsChars needle (c :: cs) || hasSubChars needle cs

/-- Python `part in data` for a string: substring containment. -/
def strContainsSub (hay needle : String) : Bool :=
  hasSubChars needle.data hay.data

/-- Python `str.startswith`. -/
def pyStartsWith (s pre : String) : Bool :=
  startsChars pre.data s.data

/-- Python `str.split(sep)` for a one-character separator, on character
lists: `""` splits to `[""]`, adjacent separators yield empty pieces. -/
def splitChars (sep : Char) : List Char → List (List Char)
  | [] => [[]]
  | c :: cs =>
    match splitChars sep cs with
    | [] => if c = sep then [[], []] else [[c]]
    | g :: gs => if c = sep then [] :: g :: gs else (c :: g) :: gs

/-- Python `extract_path.split(".")`. -/
def pySplitDot (s : String) : List String :=
  (splitChars '.' s.data).map String.mk

/-- The `for part in parts` walk of `_extract_reference_data`:
`some data` when the whole path resolved, `none` when a segment was missing
(Python sets `data = None` and breaks), `Except.error ()` when Python would
raise a TypeError (`in` on a number, bool or null, or indexing a list or a
string with a string). -/
def walkPath : JVal → List String → Except Unit (Option JVal)
  | data, [] => Except.ok (some data)
  | data, part :: rest =>
    match data with
    | JVal.jobj fs =>
      if fs.any (fun kv => decide (kv.1 = part)) then
        match objLookupLast fs part with
        | some v => walkPath v rest
        | none => Except.error ()
      else Except.ok none
    | JVal.jarr xs => if arrContainsStr xs part then Except.error () else Except.ok none
    | JVal.jstr s => if strContainsSub s part then Except.error () else Except.ok none
    | _ => Except.error ()

/-- Embedding of `MCPHost._extract_reference_data` (host.py lines 457-476).
Returns `Except.error ()` exactly where the Python code would raise an
uncaught TypeError inside the path walk; `json.JSONDecodeError` is caught
by the source and becomes the literal error string. -/
def extractReferenceData (resultContent : String) (extractPath : Option String) :
    Except Unit String :=
  if extractPath.getD "" = "" ∨ resultContent = "" then Except.ok resultContent
  else
    match parseJson resultContent with
    | none => Except.ok "Cannot extract path: result is not valid JSON"
    | some data =>
      match walkPath data (pySplitDot (extractPath.getD "")) with
      | Except.error e => Except.error e
      | Except.ok none => Except.ok "Path not found in data"
      | Except.ok (some v) =>
        Except.ok (if jtruthy v then dumps v else "Path not found in data")

example : extractReferenceData "\x7b\"a\":\x7b\"b\":42\x7d\x7d" (some "a.b")
    = Except.ok "42" := rfl

example : extractReferenceData "\x7b\"a\":\x7b\x7d\x7d" (some "a.b")
    = Except.ok "Path not found in data" := rfl

example : extractReferenceData "\x7b\"a\":0\x7d" (some "a")
    = Except.ok "Path not found in data" := rfl

/-- A normalized content block: the internal tagged union both providers'
response shapes and message shapes map onto. -/
inductive Content where
  | text (body : String) : Content
  | toolUse (nm : String) (args : List (String × String)) (callId : String) : Content
  | toolResult (toolUseId : String) (content : String) : Content
deriving Repr, DecidableEq

/-- A conversation message: role plus ordered content blocks (the opening
user message's plain string is modelled as a single text block). -/
structure Message where
  role : String
  content : List Content
deriving Repr, DecidableEq

/-- Tool arguments as passed through the loop (modelled as a string-valued
record, which is all the embedded handlers read). -/
abbrev Args := List (String × String)

/-- True on text blocks (`content.type == "text"`). -/
def isTextBlock : Content → Bool
  | Content.text _ => true
  | _ => false

/-- The bodies of the text blocks of a response, in order. -/
def textBodies : List Content → List String
  | [] => []
  | Content.text s :: rest => s :: textBodies rest
  | _ :: rest => textBodies rest

/-- The fixed two-message append every handler of host.py performs: the
in-progress assistant message (accumulated blocks plus the tool-use block)
then a user message carrying one tool_result block for `callId`. -/
def appendToolExchange (msgs : List Message) (acc : List Content)
    (content : Content) (callId : String) (resultContent : String) :
    List Message :=
  msgs ++ [Message.mk "assistant" (acc ++ [content]),
           Message.mk "user" [Content.toolResult callId resultContent]]

/-- The literal error string of `_handle_reference_tool` for an unknown
referenced call id. -/
def noToolResultError (refId : String) : String :=
  "Error: No tool result found with ID '" ++ refId ++ "'"

/-- Embedding of `MCPHost._handle_reference_tool` (host.py lines 412-455):
looks up the referenced call id in the session's call-result cache, extracts
an optional JSON path, appends the fixed two-message exchange, and always
hands back `none` as the memoizable result (the referenced data is not
re-stored under the new call id). -/
def handleReferenceTool (callId refId : String) (extractPath : Option String)
    (content : Content) (acc : List Content) (msgs : List Message)
    (ctx : List (String × String)) :
    Except Unit (List Message × Option String) :=
  match lookupDict ctx refId with
  | some cached =>
    (extractReferenceData cached extractPath).map
      (fun resultContent => (appendToolExchange msgs acc content callId resultContent, none))
  | none =>
    Except.ok (appendToolExchange msgs acc content callId (noToolResultError refId), none)

/-- Embedding of `MCPHost._handle_standard_tool` (host.py lines 531-585),
with the backend invocation (`client.session.call_tool`) abstracted as the
`invoke` parameter. For an unresolved tool name it appends the user-visible
not-found message to the output buffer and returns the not-available string
as the tool result, never raising. -/
def handleStandardTool (invoke : String → Args → String)
    (toolToClientMap : List (String × String))
    (toolName2 : String) (args : Args) (callId : String)
    (content : Content) (acc : List Content) (msgs : List Message)
    (finalText : List String) :
    List Message × List String × Option String :=
  match lookupDict toolToClientMap toolName2 with
  | some clientName =>
    let resultContent := invoke toolName2 args
    (appendToolExchange msgs acc content callId resultContent,
     finalText ++ ["[Calling tool " ++ toolName2 ++ " with args via client "
                   ++ clientName ++ "]"],
     some resultContent)
  | none =>
    (appendToolExchange msgs acc content callId
       ("Error: Tool '" ++ toolName2 ++ "' is not available."),
     finalText ++ ["Error: Tool '" ++ toolName2 ++ "' not found in any client"],
     some ("Error: Tool '" ++ toolName2 ++ "' is not available."))

/-- The external collaborators of `MCPHost`: the backend tool entry point,
the resource reader, the tool-name-to-client map built by the last catalog
construction, and the model-call oracle (the n-th call's normalized
response contents, as a function of the history it was given). -/
structure HostEnv where
  invoke : String → Args → String
  readResource : String → String → String
  toolToClientMap : List (String × String)
  oracle : Nat → List Message → List Content

/-- Embedding of `MCPHost._handle_resource_access` (host.py lines 478-518),
the resource read abstracted as `env.readResource`. -/
def handleResourceAccess (env : HostEnv) (callId : String) (args : Args)
    (content : Content) (acc : List Content) (msgs : List Message)
    (finalText : List String) :
    Except Unit (List Message × List String × Option String) :=
  match lookupDict args "uri", lookupDict args "client" with
  | some uri, some clientName =>
    let resultContent := env.readResource clientName uri
    Except.ok (appendToolExchange msgs acc content callId resultContent,
               finalText ++ ["[Accessing resource " ++ uri ++ "]"],
               some resultContent)
  | _, _ => Except.error ()

/-- Embedding of `MCPHost._process_tool_call` (host.py lines 362-410): the
three-way dispatch on the requested tool name. A missing `tool_id` argument
models the source's KeyError. -/
def hostProcessToolCall (env : HostEnv) (toolName2 : String) (args : Args)
    (callId : String) (content : Content) (acc : List Content)
    (msgs : List Message) (ctx : List (String × String))
    (finalText : List String) :
    Except Unit (List Message × List String × Option String) :=
  if toolName2 = "reference_tool_output" then
    match lookupDict args "tool_id" with
    | none => Except.error ()
    | some refId =>
      (handleReferenceTool callId refId (lookupDict args "extract_path")
          content acc msgs ctx).map
        (fun p => (p.1, finalText, p.2))
  else if toolName2 = "access_resource" then
    handleResourceAccess env callId args content acc msgs finalText
  else
    Except.ok (handleStandardTool env.invoke env.toolToClientMap toolName2 args
                 callId content acc msgs finalText)

/-- The host loop's cache write (host.py lines 292-293): memoize the result
under the call id only when it is truthy. -/
def hostCacheUpdate (callId : String) (resultContent : Option String)
    (ctx : List (String × String)) : List (String × String) :=
  match resultContent with
  | some r => if r = "" then ctx else dictInsert callId r ctx
  | none => ctx

/-- Outcome of one round of the host agent loop's content scan. -/
inductive HostRoundOut where
  | noTool (finalText : List String) : HostRoundOut
  | dispatched (next : List Content) (msgs : List Message)
      (ctx : List (String × String)) (finalText : List String)
      (calls : Nat) : HostRoundOut
deriving Repr

/-- Embedding of the content scan of one round of
`MCPHost.process_input_with_agent_loop` (host.py lines 263-310): text
bodies are appended to the output buffer, the first tool_use block is
dispatched, the cache is written, the model is re-invoked with the updated
history, and the rest of the round's blocks are dropped. `calls` counts the
model calls made so far and indexes the oracle. -/
def hostRound (env : HostEnv) (calls : Nat) :
    List Content → List Content → List Message →
    List (String × String) → List String → Except Unit HostRoundOut
  | [], _, _, _, finalText => Except.ok (HostRoundOut.noTool finalText)
  | Content.text s :: rest, acc, msgs, ctx, finalText =>
    hostRound env calls rest (acc ++ [Content.text s]) msgs ctx (finalText ++ [s])
  | Content.toolUse nm args callId :: _, acc, msgs, ctx, finalText =>
    match hostProcessToolCall env nm args callId (Content.toolUse nm args callId)
        acc msgs ctx finalText with
    | Except.error e => Except.error e
    | Except.ok out =>
      Except.ok (HostRoundOut.dispatched (env.oracle calls out.1) out.1
        (hostCacheUpdate callId out.2.2 ctx) out.2.1 (calls + 1))
  | Content.toolResult _ _ :: rest, acc, msgs, ctx, finalText =>
    hostRound env calls rest acc msgs ctx finalText

/-- The model provider enum of `arcade_utils.ModelProvider`. -/
inductive ModelProvider where
  | ANTHROPIC : ModelProvider
  | OPENAI : ModelProvider
deriving Repr, DecidableEq

/-- One named parameter of a tool's input schema. -/
structure ParamSpec where
  pname : String
  ptype : String
  pdesc : String
  pminimum : Option Int
deriving Repr, DecidableEq

/-- A tool descriptor: name, description, schema parameters and their
required subset. -/
structure ToolSchema where
  tname : String
  tdescription : String
  params : List ParamSpec
  required : List String
deriving Repr, DecidableEq

/-- The per-provider wire shape of a tool descriptor: Anthropic's flat
`input_schema` dict against OpenAI's `{type: function, function: ...}`
wrapper. -/
inductive ToolWire where
  | anthropicTool (s : ToolSchema) : ToolWire
  | openaiFunction (s : ToolSchema) : ToolWire
deriving Repr, DecidableEq

/-- The name carried by a tool descriptor in either wire shape. -/
def toolWireName : ToolWire → String
  | ToolWire.anthropicTool s => s.tname
  | ToolWire.openaiFunction s => s.tname

/-- The schema of the `reference_tool_output` control tool, identical in
both provider branches of `StepExecutor._get_reference_tool`. -/
def referenceToolSchema : ToolSchema :=
  ToolSchema.mk "reference_tool_output"
    "Reference the output of a previously called tool from any of the prior steps."
    [ParamSpec.mk "tool_id" "string"
       "The ID of the previously called tool. This is NOT the name of the tool, it is the ID of the tool call. "
       none]
    ["tool_id"]

/-- Embedding of `StepExecutor._get_reference_tool` (step_executor.py
lines 63-98). -/
def getReferenceTool : ModelProvider → ToolWire
  | ModelProvider.ANTHROPIC => ToolWire.anthropicTool referenceToolSchema
  | ModelProvider.OPENAI => ToolWire.openaiFunction referenceToolSchema

/-- The schema of the `get_previous_step_result` control tool. -/
def previousStepToolSchema : ToolSchema :=
  ToolSchema.mk "get_previous_step_result"
    "Get the result from a previous step in the plan. Use this when you need to reference what was accomplished in an earlier step. This is the output from the execution agent, not from a tool call."
    [ParamSpec.mk "step_number" "integer"
       "The step number (1-based) to get the result from. For example, use 1 for the first step, 2 for the second step, etc."
       (some 1)]
    ["step_number"]

/-- Embedding of `StepExecutor._get_previous_step_tool` (step_executor.py
lines 100-138). -/
def getPreviousStepTool : ModelProvider → ToolWire
  | ModelProvider.ANTHROPIC => ToolWire.anthropicTool previousStepToolSchema
  | ModelProvider.OPENAI => ToolWire.openaiFunction previousStepToolSchema

/-- The schema of the `signal_insufficient_context` control tool. -/
def insufficientContextToolSchema : ToolSchema :=
  ToolSchema.mk "signal_insufficient_context"
    "Signal that this step cannot be completed due to insufficient context or missing required information. Use this when you determine that you do not have enough information to proceed successfully with the current step. If in doubt, use this tool."
    [ParamSpec.mk "reason" "string"
       "Explanation of what specific information or context is missing that prevents completing this step."
       none]
    ["reason"]

/-- Embedding of `StepExecutor._get_insufficient_context_tool`
(step_executor.py lines 140-176). -/
def getInsufficientContextTool : ModelProvider → ToolWire
  | ModelProvider.ANTHROPIC => ToolWire.anthropicTool insufficientContextToolSchema
  | ModelProvider.OPENAI => ToolWire.openaiFunction insufficientContextToolSchema

/-- Embedding of `StepExecutor.get_all_tools` (step_executor.py lines
178-187): the three control tools are prepended, in this fixed order, to
the externally fetched backend tools (the `get_toolkits_from_arcade`
result, a parameter here). -/
def getAllTools (provider : ModelProvider) (arcadeTools : List ToolWire) :
    List ToolWire :=
  [getReferenceTool provider, getPreviousStepTool provider,
   getInsufficientContextTool provider] ++ arcadeTools

/-- The sentinel token of the loop's designated early-exit signal. -/
def insufficientContextSentinel : String :=
  "STEP_FAILED_INSUFFICIENT_CONTEXT"

/-- `state["tool_results"]`: the session's call-result cache, call id to
(tool name, result content). -/
abbrev ToolResultsCache := List (String × (String × String))

/-- The external `ToolProcessor.process_tool_call` as seen from the loop
(its module is not part of the embedded sources): from the tool name,
arguments, call id, raw content block, assistant accumulator and history it
produces the updated history, extra output-buffer fragments, and an
optional result content. -/
abbrev Resolver :=
  String → Args → String → Content → List Content → List Message →
    (List Message × List String × Option String)

/-- The model-call oracle: the normalized contents of the n-th model call's
response, as a function of the history passed to that call. -/
abbrev Oracle := Nat → List Message → List Content

/-- The loop's cache write (step_executor.py lines 308-313): memoize
`(tool_name, result)` under the call id only when the result is truthy and
the tool is neither `get_previous_step_result` nor `reference_tool_output`. -/
def stepCacheUpdate (toolName2 callId : String) (resultContent : Option String)
    (cache : ToolResultsCache) : ToolResultsCache :=
  match resultContent with
  | some r =>
    if r ≠ "" ∧ toolName2 ≠ "get_previous_step_result"
        ∧ toolName2 ≠ "reference_tool_output" then
      dictInsert callId (toolName2, r) cache
    else cache
  | none => cache

/-- Outcome of one round of the step-executor agent loop's content scan. -/
inductive RoundOut where
  | noTool (finalText : List String) : RoundOut
  | sentinel (finalText : List String) : RoundOut
  | dispatched (next : List Content) (msgs : List Message)
      (cache : ToolResultsCache) (finalText : List String) (calls : Nat) : RoundOut
deriving Repr

/-- Embedding of the content scan of one round of
`StepExecutor.process_input_with_agent_loop` (step_executor.py lines
261-328): text bodies go to the output buffer and the assistant
accumulator; on the first tool_use block the resolver runs, the
insufficiency sentinel short-circuits, otherwise the cache write happens,
the model is re-invoked on the updated history, and the remaining blocks of
the round are dropped. -/
def processContents (resolver : Resolver) (oracle : Oracle) (calls : Nat) :
    List Content → List Content → List Message → ToolResultsCache →
    List String → RoundOut
  | [], _, _, _, finalText => RoundOut.noTool finalText
  | Content.text s :: rest, acc, msgs, cache, finalText =>
    processContents resolver oracle calls rest (acc ++ [Content.text s]) msgs cache
      (finalText ++ [s])
  | Content.toolUse nm args callId :: _, acc, msgs, cache, finalText =>
    let out := resolver nm args callId (Content.toolUse nm args callId) acc msgs
    let ft2 := finalText ++ out.2.1
    match out.2.2 with
    | some r =>
      if pyStartsWith r insufficientContextSentinel then
        RoundOut.sentinel (ft2 ++ [r])
      else
        RoundOut.dispatched (oracle calls out.1) out.1
          (stepCacheUpdate nm callId (some r) cache) ft2 (calls + 1)
    | none =>
      RoundOut.dispatched (oracle calls out.1) out.1
        (stepCacheUpdate nm callId none cache) ft2 (calls + 1)
  | Content.toolResult _ _ :: rest, acc, msgs, cache, finalText =>
    processContents resolver oracle calls rest acc msgs cache finalText

/-- What one invocation of the step-executor loop hands back: the output
buffer, the mutated call-result cache, the number of model calls made, and
the number of completed rounds that contained a tool call (the loop's `i`). -/
structure LoopOut where
  finalText : List String
  toolResults : ToolResultsCache
  calls : Nat
  rounds : Nat
deriving Repr

/-- The `while True and i < max_iterations` loop of
`StepExecutor.process_input_with_agent_loop` (step_executor.py lines
238-340); `fuel = max_iterations - i` so the guard `i < max_iterations` is
`fuel > 0`. A round with no tool call, or the insufficiency sentinel,
returns the buffer; a dispatched round recurses with the new response and
`i + 1` (the max-iterations warning is a log line with no state effect). -/
def loopGo (resolver : Resolver) (oracle : Oracle) :
    Nat → List Content → List Message → ToolResultsCache → List String →
    Nat → Nat → LoopOut
  | 0, _, _, cache, finalText, calls, rounds =>
    LoopOut.mk finalText cache calls rounds
  | Nat.succ fuel, contents, msgs, cache, finalText, calls, rounds =>
    match processContents resolver oracle calls contents [] msgs cache finalText with
    | RoundOut.noTool ft2 => LoopOut.mk ft2 cache calls rounds
    | RoundOut.sentinel ft2 => LoopOut.mk ft2 cache calls rounds
    | RoundOut.dispatched next m2 cache2 ft2 calls2 =>
      loopGo resolver oracle fuel next m2 cache2 ft2 calls2 (rounds + 1)

/-- Embedding of `StepExecutor.process_input_with_agent_loop`
(step_executor.py lines 189-340): build the opening user message, make the
initial model call (oracle call 0), then run the round loop with the
iteration budget. -/
def processInputWithAgentLoop (resolver : Resolver) (oracle : Oracle)
    (inputAction : String) (maxIterations : Nat) (cache0 : ToolResultsCache) :
    LoopOut :=
  let msgs := [Message.mk "user" [Content.text inputAction]]
  loopGo resolver oracle maxIterations (oracle 0 msgs) msgs cache0 [] 1 0

theorem processContents_text_run (resolver : Resolver) (oracle : Oracle) (calls : Nat)
    (pre rest : List Content) (acc : List Content) (msgs : List Message)
    (cache : ToolResultsCache) (finalText : List String)
    (hpre : ∀ c ∈ pre, isTextBlock c = true) :
    processContents resolver oracle calls (pre ++ rest) acc msgs cache finalText
      = processContents resolver oracle calls rest (acc ++ pre) msgs cache
          (finalText ++ textBodies pre) := by
  induction pre generalizing acc finalText with
  | nil => simp [textBodies]
  | cons c pre ih =>
    cases c with
    | text s =>
      simp only [List.cons_append, processContents, textBodies, List.append_eq]
      rw [ih (acc ++ [Content.text s]) (finalText ++ [s])
        (fun c hc => hpre c (List.mem_cons_of_mem _ hc))]
      simp [List.append_assoc]
    | toolUse nm args callId =>
      exact absurd (hpre _ (List.mem_cons_self _ _)) (by simp [isTextBlock])
    | toolResult a b =>
      exact absurd (hpre _ (List.mem_cons_self _ _)) (by simp [isTextBlock])

/-- C1: for every provider (ANTHROPIC or OPENAI) and every fetched backend
tool list, the catalog of `get_all_tools` begins with the three control
tools `reference_tool_output`, `get_previous_step_result`,
`signal_insufficient_context` in exactly that order, and every backend tool
comes after them. -/
theorem control_tools_first_in_catalog (provider : ModelProvider)
    (arcadeTools : List ToolWire) :
    (getAllTools provider arcadeTools).take 3
      = [getReferenceTool provider, getPreviousStepTool provider,
         getInsufficientContextTool provider]
    ∧ ((getAllTools provider arcadeTools).take 3).map toolWireName
      = ["reference_tool_output", "get_previous_step_result",
         "signal_insufficient_context"]
    ∧ (getAllTools provider arcadeTools).drop 3 = arcadeTools := by
  cases provider <;> exact ⟨rfl, rfl, rfl⟩

/-- C5: for every `tool_id` argument absent from the session's call-result
cache, `reference_tool_output` returns exactly
`Error: No tool result found with ID '<tool_id>'` as its tool result and
never raises (the handler returns `Except.ok`, with the error string as the
tool_result content and no memoizable result). -/
theorem reference_unknown_id_error (callId refId : String)
    (extractPath : Option String) (content : Content) (acc : List Content)
    (msgs : List Message) (ctx : List (String × String))
    (h : lookupDict ctx refId = none) :
    handleReferenceTool callId refId extractPath content acc msgs ctx
      = Except.ok (appendToolExchange msgs acc content callId
          ("Error: No tool result found with ID '" ++ refId ++ "'"), none) := by
  unfold handleReferenceTool
  rw [h]
  rfl

theorem reference_unknown_id_error_witness :
    lookupDict ([("call_1", "cached")] : List (String × String)) "call_9" = none
    ∧ handleReferenceTool "id_7" "call_9" none (Content.text "x") [] []
        [("call_1", "cached")]
      = Except.ok (appendToolExchange [] [] (Content.text "x") "id_7"
          ("Error: No tool result found with ID '" ++ "call_9" ++ "'"), none) :=
  ⟨rfl, reference_unknown_id_error "id_7" "call_9" none (Content.text "x") [] []
    [("call_1", "cached")] rfl⟩

/-- C6: path extraction with `extract_path="a.b"` against cached content
`{"a":{"b":42}}` returns `"42"`, against `{"a":{}}` returns
`Path not found in data`, and against any nonempty cached content that is
not valid JSON returns `Cannot extract path: result is not valid JSON`
(cached content can never be the empty string, since writes are guarded by
truthiness). -/
theorem extract_path_cases :
    extractReferenceData "\x7b\"a\":\x7b\"b\":42\x7d\x7d" (some "a.b")
      = Except.ok "42"
    ∧ extractReferenceData "\x7b\"a\":\x7b\x7d\x7d" (some "a.b")
      = Except.ok "Path not found in data"
    ∧ ∀ s : String, s ≠ "" → parseJson s = none →
        extractReferenceData s (some "a.b")
          = Except.ok "Cannot extract path: result is not valid JSON" := by
  refine ⟨rfl, rfl, ?_⟩
  intro s hs hp
  have hcond : ¬((some "a.b").getD "" = "" ∨ s = "") := by
    rintro (h1 | h2)
    · exact absurd h1 (by decide)
    · exact hs h2
  unfold extractReferenceData
  rw [if_neg hcond, hp]

theorem extract_path_cases_witness :
    ("not json" : String) ≠ "" ∧ parseJson "not json" = none
    ∧ extractReferenceData "not json" (some "a.b")
      = Except.ok "Cannot extract path: result is not valid JSON" :=
  ⟨by decide, rfl, extract_path_cases.2.2 "not json" (by decide) rfl⟩

/-- C10: whenever the cached result parses as JSON and the dot-separated
path resolves to a falsy value (0, false, null, "", [] or an empty object),
`_extract_reference_data` reports `Path not found in data` instead of the
serialized value, because the final guard tests the extracted value for
truthiness rather than for path presence. -/
theorem falsy_value_reported_as_missing (s p : String) (v u : JVal)
    (hs : s ≠ "") (hp : p ≠ "")
    (hparse : parseJson s = some v)
    (hwalk : walkPath v (pySplitDot p) = Except.ok (some u))
    (hfalsy : jtruthy u = false) :
    extractReferenceData s (some p) = Except.ok "Path not found in data" := by
  have hcond : ¬((some p).getD "" = "" ∨ s = "") := by
    rintro (h1 | h2)
    · exact hp (by simpa using h1)
    · exact hs h2
  unfold extractReferenceData
  rw [if_neg hcond, hparse]
  simp only [Option.getD_some]
  rw [hwalk]
  simp [hfalsy]

theorem falsy_value_reported_as_missing_witness :
    parseJson "\x7b\"count\":0\x7d" = some (JVal.jobj [("count", JVal.jnum 0)])
    ∧ walkPath (JVal.jobj [("count", JVal.jnum 0)]) (pySplitDot "count")
      = Except.ok (some (JVal.jnum 0))
    ∧ jtruthy (JVal.jnum 0) = false
    ∧ extractReferenceData "\x7b\"count\":0\x7d" (some "count")
      = Except.ok "Path not found in data" :=
  ⟨rfl, rfl, rfl,
    falsy_value_reported_as_missing "\x7b\"count\":0\x7d" "count"
      (JVal.jobj [("count", JVal.jnum 0)]) (JVal.jnum 0)
      (by decide) (by decide) rfl rfl rfl⟩

/-- C8: only non-control tool calls are memoized. The step-executor loop's
cache write is the identity for `reference_tool_output` and
`get_previous_step_result` whatever the result, and the host's
`_handle_reference_tool` always hands back `none` as the memoizable result,
so the host loop's cache write after a reference call leaves the cache
unchanged (the referenced result is not re-stored under the new call id). -/
theorem control_tools_not_memoized (toolName2 : String)
    (h : toolName2 = "reference_tool_output"
      ∨ toolName2 = "get_previous_step_result") :
    (∀ (callId : String) (resultContent : Option String) (cache : ToolResultsCache),
        stepCacheUpdate toolName2 callId resultContent cache = cache)
    ∧ ∀ (callId refId : String) (extractPath : Option String) (content : Content)
        (acc : List Content) (msgs : List Message) (ctx : List (String × String))
        (out : List Message × Option String),
        handleReferenceTool callId refId extractPath content acc msgs ctx
          = Except.ok out →
        hostCacheUpdate callId out.2 ctx = ctx := by
  constructor
  · intro callId resultContent cache
    cases resultContent with
    | none => rfl
    | some r =>
      show (if r ≠ "" ∧ toolName2 ≠ "get_previous_step_result"
          ∧ toolName2 ≠ "reference_tool_output" then
          dictInsert callId (toolName2, r) cache else cache) = cache
      rw [if_neg]
      rintro ⟨_, h2, h3⟩
      cases h with
      | inl e => exact h3 e
      | inr e => exact h2 e
  · intro callId refId extractPath content acc msgs ctx out hout
    cases hl : lookupDict ctx refId with
    | some cached =>
      have hout2 : Except.map (fun resultContent =>
          (appendToolExchange msgs acc content callId resultContent,
           (none : Option String)))
          (extractReferenceData cached extractPath) = Except.ok out := by
        rw [← hout]
        unfold handleReferenceTool
        rw [hl]
      cases he : extractReferenceData cached extractPath with
      | error e => rw [he] at hout2; exact absurd hout2 (by simp [Except.map])
      | ok rc =>
        rw [he] at hout2
        have hpair : (appendToolExchange msgs acc content callId rc,
            (none : Option String)) = out := Except.ok.inj hout2
        rw [← hpair]
        rfl
    | none =>
      have hpair : (appendToolExchange msgs acc content callId
          (noToolResultError refId), (none : Option String)) = out := by
        apply Except.ok.inj
        rw [← hout]
        unfold handleReferenceTool
        rw [hl]
      rw [← hpair]
      rfl

theorem control_tools_not_memoized_witness :
    (("reference_tool_output" : String) = "reference_tool_output"
      ∨ ("reference_tool_output" : String) = "get_previous_step_result")
    ∧ stepCacheUpdate "reference_tool_output" "id_3" (some "res")
        [("id_2", ("t", "r"))] = [("id_2", ("t", "r"))] :=
  ⟨Or.inl rfl,
    (control_tools_not_memoized "reference_tool_output" (Or.inl rfl)).1
      "id_3" (some "res") [("id_2", ("t", "r"))]⟩

/-- C2: in any round of the agent loop, when the resolver's result for the
dispatched tool call begins with the insufficiency sentinel, the loop
appends that result as the final element of the returned output buffer and
returns immediately: the cache is untouched, the round counter does not
advance, and the model-call count is unchanged (no further model calls
happen in the invocation). -/
theorem insufficiency_signal_short_circuits (resolver : Resolver) (oracle : Oracle)
    (fuel : Nat) (pre suf : List Content) (nm : String) (args : Args)
    (callId : String) (msgs m2 : List Message) (extra : List String) (r : String)
    (cache : ToolResultsCache) (finalText : List String) (calls rounds : Nat)
    (hpre : ∀ c ∈ pre, isTextBlock c = true)
    (hres : resolver nm args callId (Content.toolUse nm args callId) pre msgs
      = (m2, extra, some r))
    (hsent : pyStartsWith r insufficientContextSentinel = true) :
    loopGo resolver oracle (fuel + 1)
        (pre ++ Content.toolUse nm args callId :: suf) msgs cache finalText
        calls rounds
      = LoopOut.mk (finalText ++ textBodies pre ++ extra ++ [r])
          cache calls rounds := by
  have h1 := processContents_text_run resolver oracle calls pre
    (Content.toolUse nm args callId :: suf) [] msgs cache finalText hpre
  show (match processContents resolver oracle calls
      (pre ++ Content.toolUse nm args callId :: suf) [] msgs cache finalText with
    | RoundOut.noTool ft2 => LoopOut.mk ft2 cache calls rounds
    | RoundOut.sentinel ft2 => LoopOut.mk ft2 cache calls rounds
    | RoundOut.dispatched next m2 cache2 ft2 calls2 =>
      loopGo resolver oracle fuel next m2 cache2 ft2 calls2 (rounds + 1))
    = LoopOut.mk (finalText ++ textBodies pre ++ extra ++ [r]) cache calls rounds
  rw [h1]
  simp only [List.nil_append, processContents, hres, hsent]
  simp [List.append_assoc]

theorem insufficiency_signal_short_circuits_witness :
    (∀ c ∈ [Content.text "working"], isTextBlock c = true)
    ∧ ((fun _ _ _ _ _ m =>
          (m, ["note"], some "STEP_FAILED_INSUFFICIENT_CONTEXT: missing calendar access")
        : Resolver) "signal_insufficient_context" [("reason", "missing calendar access")]
          "id_1" (Content.toolUse "signal_insufficient_context"
            [("reason", "missing calendar access")] "id_1")
          [Content.text "working"] [Message.mk "user" [Content.text "do it"]]
        = ([Message.mk "user" [Content.text "do it"]], ["note"],
           some "STEP_FAILED_INSUFFICIENT_CONTEXT: missing calendar access"))
    ∧ pyStartsWith "STEP_FAILED_INSUFFICIENT_CONTEXT: missing calendar access"
        insufficientContextSentinel = true
    ∧ loopGo (fun _ _ _ _ _ m =>
          (m, ["note"], some "STEP_FAILED_INSUFFICIENT_CONTEXT: missing calendar access"))
        (fun _ _ => []) (24 + 1)
        ([Content.text "working"] ++ Content.toolUse "signal_insufficient_context"
            [("reason", "missing calendar access")] "id_1" :: [])
        [Message.mk "user" [Content.text "do it"]] [] ["earlier"] 3 2
      = LoopOut.mk (["earlier"] ++ textBodies [Content.text "working"] ++ ["note"]
            ++ ["STEP_FAILED_INSUFFICIENT_CONTEXT: missing calendar access"])
          [] 3 2 := by
  refine ⟨by decide, rfl, by decide, ?_⟩
  exact insufficiency_signal_short_circuits
    (fun _ _ _ _ _ m =>
      (m, ["note"], some "STEP_FAILED_INSUFFICIENT_CONTEXT: missing calendar access"))
    (fun _ _ => []) 24 [Content.text "working"] []
    "signal_insufficient_context" [("reason", "missing calendar access")] "id_1"
    [Message.mk "user" [Content.text "do it"]]
    [Message.mk "user" [Content.text "do it"]] ["note"]
    "STEP_FAILED_INSUFFICIENT_CONTEXT: missing calendar access"
    [] ["earlier"] 3 2 (by decide) rfl (by decide)

/-- C3: a round's outcome does not depend on anything after its first
tool_use block (the remaining blocks of the same response are never
processed), and when the blocks before the first tool_use are text, the
round dispatches exactly that first tool call and immediately issues a new
model call (`oracle calls` applied to the updated history `m2`, model-call
count bumped) without inspecting the rest. -/
theorem single_tool_use_per_round (resolver : Resolver) (oracle : Oracle)
    (calls : Nat) (pre suf1 suf2 : List Content) (nm : String) (args : Args)
    (callId : String) (acc : List Content) (msgs : List Message)
    (cache : ToolResultsCache) (finalText : List String) :
    (processContents resolver oracle calls
        (pre ++ Content.toolUse nm args callId :: suf1) acc msgs cache finalText
      = processContents resolver oracle calls
          (pre ++ Content.toolUse nm args callId :: suf2) acc msgs cache finalText)
    ∧ ((∀ c ∈ pre, isTextBlock c = true) →
        ∀ (m2 : List Message) (extra : List String) (r : String),
          resolver nm args callId (Content.toolUse nm args callId) (acc ++ pre) msgs
            = (m2, extra, some r) →
          pyStartsWith r insufficientContextSentinel = false →
          processContents resolver oracle calls
              (pre ++ Content.toolUse nm args callId :: suf1) acc msgs cache finalText
            = RoundOut.dispatched (oracle calls m2) m2
                (stepCacheUpdate nm callId (some r) cache)
                (finalText ++ textBodies pre ++ extra) (calls + 1)) := by
  constructor
  · induction pre generalizing acc finalText with
    | nil => simp only [List.nil_append, processContents]
    | cons c pre ih =>
      cases c with
      | text s => simp only [List.cons_append, processContents]; exact ih _ _
      | toolUse nm2 args2 callId2 => simp only [List.cons_append, processContents]
      | toolResult a b => simp only [List.cons_append, processContents]; exact ih _ _
  · intro hpre m2 extra r hres hns
    rw [processContents_text_run resolver oracle calls pre _ acc msgs cache
      finalText hpre]
    simp only [processContents, hres, hns]
    simp [List.append_assoc]

theorem single_tool_use_per_round_witness :
    (processContents (fun _ _ _ _ _ m => (m, [], some "ok")) (fun _ _ => []) 1
        ([Content.text "t"] ++ Content.toolUse "send_email" [] "id_1"
          :: [Content.toolUse "second_tool" [] "id_2"])
        [] [Message.mk "user" [Content.text "q"]] [] []
      = processContents (fun _ _ _ _ _ m => (m, [], some "ok")) (fun _ _ => []) 1
          ([Content.text "t"] ++ Content.toolUse "send_email" [] "id_1" :: [])
          [] [Message.mk "user" [Content.text "q"]] [] [])
    ∧ processContents (fun _ _ _ _ _ m => (m, [], some "ok")) (fun _ _ => []) 1
        ([Content.text "t"] ++ Content.toolUse "send_email" [] "id_1"
          :: [Content.toolUse "second_tool" [] "id_2"])
        [] [Message.mk "user" [Content.text "q"]] [] []
      = RoundOut.dispatched [] [Message.mk "user" [Content.text "q"]]
          (stepCacheUpdate "send_email" "id_1" (some "ok") [])
          ([] ++ textBodies [Content.text "t"] ++ []) (1 + 1) := by
  have h := single_tool_use_per_round (fun _ _ _ _ _ m => (m, [], some "ok"))
    (fun _ _ => []) 1 [Content.text "t"]
    [Content.toolUse "second_tool" [] "id_2"] [] "send_email" [] "id_1"
    [] [Message.mk "user" [Content.text "q"]] [] []
  exact ⟨h.1, h.2 (by decide) [Message.mk "user" [Content.text "q"]] [] "ok"
    rfl (by decide)⟩

/-- C4: the round counter advances only on rounds that dispatched a tool
call, and when it reaches `max_iterations` the loop exits after completing
that round, still returning the accumulated buffer: with
`max_iterations = 1` and a first response that requests a tool, exactly one
round executes (`rounds = 1`), the loop returns that round's partial
output, cache and model-call count, and no exception is raised. -/
theorem iteration_cap_returns_partial_output (resolver : Resolver)
    (oracle : Oracle) (inputAction : String) (cache0 : ToolResultsCache)
    (next : List Content) (m2 : List Message) (cache2 : ToolResultsCache)
    (ft2 : List String) (calls2 : Nat)
    (hfirst : processContents resolver oracle 1
        (oracle 0 [Message.mk "user" [Content.text inputAction]]) []
        [Message.mk "user" [Content.text inputAction]] cache0 []
      = RoundOut.dispatched next m2 cache2 ft2 calls2) :
    processInputWithAgentLoop resolver oracle inputAction 1 cache0
      = LoopOut.mk ft2 cache2 calls2 1 := by
  show loopGo resolver oracle 1
      (oracle 0 [Message.mk "user" [Content.text inputAction]])
      [Message.mk "user" [Content.text inputAction]] cache0 [] 1 0
    = LoopOut.mk ft2 cache2 calls2 1
  show (match processContents resolver oracle 1
      (oracle 0 [Message.mk "user" [Content.text inputAction]]) []
      [Message.mk "user" [Content.text inputAction]] cache0 [] with
    | RoundOut.noTool ft => LoopOut.mk ft cache0 1 0
    | RoundOut.sentinel ft => LoopOut.mk ft cache0 1 0
    | RoundOut.dispatched n m c f cl =>
      loopGo resolver oracle 0 n m c f cl (0 + 1))
    = LoopOut.mk ft2 cache2 calls2 1
  rw [hfirst]
  rfl

theorem iteration_cap_returns_partial_output_witness :
    processContents (fun _ _ _ _ _ m => (m, [], some "ok"))
        (fun _ _ => [Content.toolUse "send_email" [] "id_1"]) 1
        ((fun (_ : Nat) (_ : List Message) =>
            [Content.toolUse "send_email" [] "id_1"]) 0
          [Message.mk "user" [Content.text "go"]]) []
        [Message.mk "user" [Content.text "go"]] [] []
      = RoundOut.dispatched [Content.toolUse "send_email" [] "id_1"]
          [Message.mk "user" [Content.text "go"]]
          [("id_1", ("send_email", "ok"))] [] 2
    ∧ processInputWithAgentLoop (fun _ _ _ _ _ m => (m, [], some "ok"))
        (fun _ _ => [Content.toolUse "send_email" [] "id_1"]) "go" 1 []
      = LoopOut.mk [] [("id_1", ("send_email", "ok"))] 2 1 :=
  ⟨rfl, iteration_cap_returns_partial_output
    (fun _ _ _ _ _ m => (m, [], some "ok"))
    (fun _ _ => [Content.toolUse "send_email" [] "id_1"]) "go" []
    [Content.toolUse "send_email" [] "id_1"]
    [Message.mk "user" [Content.text "go"]]
    [("id_1", ("send_email", "ok"))] [] 2 rfl⟩

/-- A resolver for the cache-overwrite run: appends one assistant message to
the history and answers "r1" while the history is the single opening
message, "r2" afterwards. -/
def cexResolver : Resolver := fun _ _ _ _ _ msgs =>
  (msgs ++ [Message.mk "assistant" []], [],
   some (if msgs.length = 1 then "r1" else "r2"))

/-- An oracle for the cache-overwrite run: the first two responses request
tool `t` with the same call id `id_1`, the third requests nothing. -/
def cexOracle : Oracle := fun n _ =>
  if n < 2 then [Content.toolUse "t" [] "id_1"] else []

/-- C7 counterexample: a run in which the model reissues the same call id
`id_1` in two consecutive rounds. After round one the cache holds
`id_1 ↦ ("t", "r1")`; the loop's round-two write with the same call id
overwrites it, and the invocation ends with the cache resolving `id_1` to
`("t", "r2")` — the entry was not preserved, so first-write-wins is false. -/
theorem same_call_id_overwritten :
    (processInputWithAgentLoop cexResolver cexOracle "go" 25 []).toolResults
      = [("id_1", ("t", "r2")), ("id_1", ("t", "r1"))]
    ∧ stepCacheUpdate "t" "id_1" (some "r1") [] = [("id_1", ("t", "r1"))]
    ∧ lookupDict [("id_1", ("t", "r1"))] "id_1" = some ("t", "r1")
    ∧ lookupDict
        (processInputWithAgentLoop cexResolver cexOracle "go" 25 []).toolResults
        "id_1" = some ("t", "r2") :=
  ⟨rfl, rfl, rfl, rfl⟩

/-- C7 as amended: a cache write never disturbs the entry of any other call
id — an entry, once written, survives every later write with a different
call id (in both loops); a later write with the same call id, which the
providers' call-id uniqueness is relied on to rule out, overwrites the
entry (last-write-wins). -/
theorem cache_write_preserves_other_ids (toolName2 callId otherId : String)
    (h : otherId ≠ callId) :
    (∀ (resultContent : Option String) (cache : ToolResultsCache),
        lookupDict (stepCacheUpdate toolName2 callId resultContent cache) otherId
          = lookupDict cache otherId)
    ∧ (∀ (resultContent : Option String) (ctx : List (String × String)),
        lookupDict (hostCacheUpdate callId resultContent ctx) otherId
          = lookupDict ctx otherId)
    ∧ ∀ (resultContent : String) (cache : ToolResultsCache),
        lookupDict (dictInsert callId (toolName2, resultContent) cache) callId
          = some (toolName2, resultContent) := by
  refine ⟨?_, ?_, ?_⟩
  · intro resultContent cache
    cases resultContent with
    | none => rfl
    | some r =>
      show lookupDict (if r ≠ "" ∧ toolName2 ≠ "get_previous_step_result"
          ∧ toolName2 ≠ "reference_tool_output" then
          dictInsert callId (toolName2, r) cache else cache) otherId
        = lookupDict cache otherId
      split
      · show (if callId = otherId then some (toolName2, r)
            else lookupDict cache otherId) = lookupDict cache otherId
        rw [if_neg (fun e => h e.symm)]
      · rfl
  · intro resultContent ctx
    cases resultContent with
    | none => rfl
    | some r =>
      show lookupDict (if r = "" then ctx else dictInsert callId r ctx) otherId
        = lookupDict ctx otherId
      split
      · rfl
      · show (if callId = otherId then some r else lookupDict ctx otherId)
          = lookupDict ctx otherId
        rw [if_neg (fun e => h e.symm)]
  · intro resultContent cache
    show (if callId = callId then some (toolName2, resultContent)
        else lookupDict cache callId) = some (toolName2, resultContent)
    rw [if_pos rfl]

theorem cache_write_preserves_other_ids_witness :
    ("id_2" : String) ≠ "id_1"
    ∧ lookupDict (stepCacheUpdate "t" "id_1" (some "r9")
        [("id_2", ("u", "kept"))]) "id_2" = lookupDict [("id_2", ("u", "kept"))] "id_2" :=
  ⟨by decide,
    (cache_write_preserves_other_ids "t" "id_1" "id_2" (by decide)).1
      (some "r9") [("id_2", ("u", "kept"))]⟩

theorem hostRound_text_run (env : HostEnv) (calls : Nat)
    (pre rest : List Content) (acc : List Content) (msgs : List Message)
    (ctx : List (String × String)) (finalText : List String)
    (hpre : ∀ c ∈ pre, isTextBlock c = true) :
    hostRound env calls (pre ++ rest) acc msgs ctx finalText
      = hostRound env calls rest (acc ++ pre) msgs ctx
          (finalText ++ textBodies pre) := by
  induction pre generalizing acc finalText with
  | nil => simp [textBodies]
  | cons c pre ih =>
    cases c with
    | text s =>
      simp only [List.cons_append, hostRound, textBodies, List.append_eq]
      rw [ih (acc ++ [Content.text s]) (finalText ++ [s])
        (fun c hc => hpre c (List.mem_cons_of_mem _ hc))]
      simp [List.append_assoc]
    | toolUse nm args callId =>
      exact absurd (hpre _ (List.mem_cons_self _ _)) (by simp [isTextBlock])
    | toolResult a b =>
      exact absurd (hpre _ (List.mem_cons_self _ _)) (by simp [isTextBlock])

theorem errAvailable_ne_empty (nm : String) :
    ("Error: Tool '" ++ nm ++ "' is not available.") ≠ "" := by
  intro e
  have hlen := congrArg String.length e
  simp [String.length_append] at hlen
  exact absurd hlen.2 (by decide)

/-- C9: a requested tool name that is not one of the host's control tools
and does not resolve through the catalog's name-to-backend map produces the
user-visible `Error: Tool '<name>' not found in any client` line in the
output buffer and `Error: Tool '<name>' is not available.` as the tool
result; nothing is raised, and the round completes as a normal dispatch
(the model is called again on the updated history), so the conversation
continues to the next round. -/
theorem unresolved_tool_returns_error_and_continues (env : HostEnv)
    (calls : Nat) (pre suf : List Content) (nm : String) (args : Args)
    (callId : String) (acc : List Content) (msgs : List Message)
    (ctx : List (String × String)) (finalText : List String)
    (hpre : ∀ c ∈ pre, isTextBlock c = true)
    (h1 : nm ≠ "reference_tool_output") (h2 : nm ≠ "access_resource")
    (h3 : lookupDict env.toolToClientMap nm = none) :
    hostRound env calls (pre ++ Content.toolUse nm args callId :: suf)
        acc msgs ctx finalText
      = Except.ok (HostRoundOut.dispatched
          (env.oracle calls (appendToolExchange msgs (acc ++ pre)
            (Content.toolUse nm args callId) callId
            ("Error: Tool '" ++ nm ++ "' is not available.")))
          (appendToolExchange msgs (acc ++ pre)
            (Content.toolUse nm args callId) callId
            ("Error: Tool '" ++ nm ++ "' is not available."))
          (dictInsert callId ("Error: Tool '" ++ nm ++ "' is not available.") ctx)
          (finalText ++ textBodies pre
            ++ ["Error: Tool '" ++ nm ++ "' not found in any client"])
          (calls + 1)) := by
  rw [hostRound_text_run env calls pre _ acc msgs ctx finalText hpre]
  simp only [hostRound, hostProcessToolCall, if_neg h1, if_neg h2,
    handleStandardTool, h3]
  simp only [hostCacheUpdate, if_neg (errAvailable_ne_empty nm)]

theorem unresolved_tool_returns_error_and_continues_witness :
    (("mystery_tool" : String) ≠ "reference_tool_output")
    ∧ (("mystery_tool" : String) ≠ "access_resource")
    ∧ lookupDict (HostEnv.mk (fun _ _ => "res") (fun _ _ => "res")
        [("list_events", "Google Calendar")] (fun _ _ => [])).toolToClientMap
        "mystery_tool" = none
    ∧ hostRound (HostEnv.mk (fun _ _ => "res") (fun _ _ => "res")
          [("list_events", "Google Calendar")] (fun _ _ => [])) 1
        ([] ++ Content.toolUse "mystery_tool" [] "id_1" :: [Content.text "after"])
        [] [Message.mk "user" [Content.text "q"]] [] []
      = Except.ok (HostRoundOut.dispatched []
          (appendToolExchange [Message.mk "user" [Content.text "q"]] ([] ++ [])
            (Content.toolUse "mystery_tool" [] "id_1") "id_1"
            ("Error: Tool '" ++ "mystery_tool" ++ "' is not available."))
          (dictInsert "id_1"
            ("Error: Tool '" ++ "mystery_tool" ++ "' is not available.") [])
          ([] ++ textBodies []
            ++ ["Error: Tool '" ++ "mystery_tool" ++ "' not found in any client"])
          (1 + 1)) := by
  refine ⟨by decide, by decide, rfl, ?_⟩
  exact unresolved_tool_returns_error_and_continues
    (HostEnv.mk (fun _ _ => "res") (fun _ _ => "res")
      [("list_events", "Google Calendar")] (fun _ _ => [])) 1
    [] [Content.text "after"] "mystery_tool" [] "id_1" []
    [Message.mk "user" [Content.text "q"]] [] []
    (by intro c hc; cases hc) (by decide) (by decide) rfl
